import Mathlib

/-!
Verification development for the embedchain core: the `QueryConfig`
prompt-template validator (`embedchain/config/QueryConfig.py`) and the
`Groundedness` evaluation metric (`embedchain/eval/metrics/groundedness.py`).
Python strings are embedded as Lean `String`/`List Char`; Python floats that
arise in scoring (sums of 0/1/NaN verdict values and their exact divisions)
are embedded as `Option ℚ` with `none` playing the role of IEEE NaN, which is
exact for every operation the code performs on them; fallible Python code
(raised exceptions) is embedded with `Except`.
-/

/-- Kinds of Python exceptions raised by the embedded code. -/
inductive PyError where
  | keyError (key : String)
  | valueError (msg : String)
  | zeroDivisionError
  | transportError (msg : String)
deriving DecidableEq, Repr

/-- A dynamic Python value, as far as the embedded code inspects one:
`isinstance(x, bool)` checks and storage of unvalidated parameters. -/
inductive PyObj where
  | pyNone
  | pyBool (b : Bool)
  | pyInt (n : Int)
  | pyStr (s : String)
deriving DecidableEq, Repr

/-- Embeds Python `isinstance(x, bool)`. -/
def PyObj.isBool : PyObj → Bool
  | .pyBool _ => true
  | _ => false

/-- The module-level `DEFAULT_PROMPT` string of `QueryConfig.py`. -/
def DEFAULT_PROMPT : String :=
  "\n  Use the following pieces of context to answer the query at the end.\n  If you don't know the answer, just say that you don't know, don't try to make up an answer.\n\n  $context\n\n  Query: $query\n\n  Helpful Answer:\n"

/-- The module-level `DEFAULT_PROMPT_WITH_HISTORY` string of `QueryConfig.py`. -/
def DEFAULT_PROMPT_WITH_HISTORY : String :=
  "\n  Use the following pieces of context to answer the query at the end.\n  If you don't know the answer, just say that you don't know, don't try to make up an answer.\n  I will provide you with our conversation history. \n\n  $context\n\n  History: $history\n\n  Query: $query\n\n  Helpful Answer:\n"

/-- Consumes the maximal run of opening braces, as the greedy `\{*` part of
the placeholder patterns does. -/
def stripBraces : List Char → List Char
  | '{' :: cs => stripBraces cs
  | cs => cs

/-- Embeds `re.search` for a pattern of the shape `\$\{*name\}*` (the
compiled `query_re`, `context_re`, `history_re` of `QueryConfig.py`): the
search succeeds iff some occurrence of `$` is followed, after its maximal
run of `{`, by the characters of `name`.  (The trailing `\}*` always
matches the empty string, and backtracking on `\{*` can never help because
`name` does not begin with `{`.) -/
def placeholderSearch (name : List Char) : List Char → Bool
  | [] => false
  | '$' :: cs => name.isPrefixOf (stripBraces cs) || placeholderSearch name cs
  | _ :: cs => placeholderSearch name cs

/-- `re.search(re.compile(r"\$\{*" + name + r"\}*"), s)` as a Boolean. -/
def phSearch (name s : String) : Bool :=
  placeholderSearch name.data s.data

/-- The normalization Python's `if not history` performs in
`QueryConfig.__init__`: `None` and the empty list both become `None`. -/
def normalizeHistory : Option (List String) → Option (List String)
  | none => none
  | some h => if h.isEmpty then none else some h

/-- Whether history is present after normalization (a non-empty sequence). -/
def historyPresent (history : Option (List String)) : Bool :=
  (normalizeHistory history).isSome

/-- The validated configuration object built by `QueryConfig.__init__`.
`template` holds the `.template` string of the Python `Template`. -/
structure QueryConfig where
  template : String
  history : Option (List String)
  model : PyObj
  temperature : PyObj
  max_tokens : PyObj
  top_p : PyObj
  stream : PyObj
deriving DecidableEq, Repr

/-- Embeds `QueryConfig.validate_template`: with no history the template
must match `query_re` and `context_re`; with history it must additionally
match `history_re`. -/
def validate_template (history : Option (List String)) (template : String) : Bool :=
  match history with
  | none => phSearch "query" template && phSearch "context" template
  | some _ =>
      phSearch "query" template && phSearch "context" template &&
      phSearch "history" template

/-- Embeds `QueryConfig.__init__`.  Arguments appear in the Python order;
`none` stands for an omitted (default `None`) argument, and `stream`
defaults to `.pyBool false` at call sites that omit it.  The result is the
constructed object, or the `ValueError` the constructor raises. -/
def queryConfigInit (template : Option String) (model temperature max_tokens top_p : PyObj)
    (history : Option (List String)) (stream : PyObj) : Except PyError QueryConfig :=
  let hist := normalizeHistory history
  let tmpl : String :=
    match template with
    | some t => t
    | none => if hist.isNone then DEFAULT_PROMPT else DEFAULT_PROMPT_WITH_HISTORY
  let temperature' := if temperature = .pyNone then .pyInt 0 else temperature
  let max_tokens' := if max_tokens = .pyNone then .pyInt 1000 else max_tokens
  let model' := if model = .pyNone then .pyStr "gpt-3.5-turbo-0613" else model
  let top_p' := if top_p = .pyNone then .pyInt 1 else top_p
  if validate_template hist tmpl then
    if stream.isBool then
      .ok { template := tmpl, history := hist, model := model',
            temperature := temperature', max_tokens := max_tokens',
            top_p := top_p', stream := stream }
    else
      .error (.valueError "`stream` should be bool")
  else
    if hist.isNone then
      .error (.valueError "`template` should have `query` and `context` keys")
    else
      .error (.valueError "`template` should have `query`, `context` and `history` keys")

/-- The ASCII whitespace characters Python's `str.strip()` removes. -/
def isPyWhitespace (c : Char) : Bool :=
  c = ' ' || c = '\t' || c = '\n' || c = '\r' || c = '\x0b' || c = '\x0c'

/-- Embeds Python `str.strip()` (ASCII whitespace). -/
def pyStrip (cs : List Char) : List Char :=
  ((cs.dropWhile isPyWhitespace).reverse.dropWhile isPyWhitespace).reverse

/-- Embeds Python `str.split(sep)` for a one-character separator: every
occurrence splits, and empty pieces are kept (`"".split("\n") == [""]`). -/
def pySplitChar (sep : Char) : List Char → List (List Char)
  | [] => [[]]
  | c :: cs =>
      match pySplitChar sep cs with
      | [] => [[]]
      | p :: ps => if c = sep then [] :: p :: ps else (c :: p) :: ps

/-- `response.strip().split("\n")` as a list of Lean strings. -/
def stripSplitLines (response : String) : List String :=
  (pySplitChar '\n' (pyStrip response.data)).map String.mk

/-- A Python float as the groundedness scorer uses them: an exact rational,
or `none` for IEEE NaN.  Every float the scorer produces is a sum of values
from `{0, 1, NaN}` divided by a positive integer, on which this model agrees
exactly with IEEE double arithmetic. -/
abbrev PFloat := Option ℚ

/-- `np.nan`. -/
def PFloat.nan : PFloat := none

/-- IEEE addition on the scorer's floats: NaN absorbs. -/
def PFloat.add : PFloat → PFloat → PFloat
  | some a, some b => some (a + b)
  | _, _ => none

/-- IEEE division by a positive machine integer: NaN propagates.  (The code
never divides by zero: Python raises `ZeroDivisionError` first, which the
embedding models separately.) -/
def PFloat.divNat : PFloat → Nat → PFloat
  | some a, n => some (a / (n : ℚ))
  | none, _ => none

/-- Python `sum(xs)`, starting from `0`. -/
def pySum (l : List PFloat) : PFloat := l.foldl PFloat.add (some 0)

namespace Groundedness

/-- Embeds the post-processing of `Groundedness._get_claim_statements` on the
model's raw response: strip, split on line breaks, drop empty lines. -/
def get_claim_statements (response : String) : List String :=
  (stripSplitLines response).filter (fun s => s ≠ "")

/-- The `verdict_score_map` lookup of `Groundedness._get_claim_verdict_scores`:
`"1"` and `"0"` map to numeric scores, `"-1"` to `np.nan`, and any other
token raises `KeyError`. -/
def verdict_score_map (verdict : String) : Except PyError PFloat :=
  if verdict = "1" then .ok (some 1)
  else if verdict = "0" then .ok (some 0)
  else if verdict = "-1" then .ok PFloat.nan
  else .error (.keyError verdict)

/-- The `for verdict in claim_verdicts: verdict_scores.append(...)` loop of
`Groundedness._get_claim_verdict_scores`: the first unmapped token raises. -/
def scoreVerdicts : List String → Except PyError (List PFloat)
  | [] => .ok []
  | v :: vs =>
      match verdict_score_map v with
      | .error e => .error e
      | .ok s =>
          match scoreVerdicts vs with
          | .error e => .error e
          | .ok rest => .ok (s :: rest)

/-- Embeds the post-processing of `Groundedness._get_claim_verdict_scores`:
strip, split on line breaks, map every line through `verdict_score_map`. -/
def get_claim_verdict_scores (response : String) : Except PyError (List PFloat) :=
  scoreVerdicts (stripSplitLines response)

/-- Embeds `Groundedness._compute_score`, parameterized by the raw text the
two language-model calls return: extract claim statements from the first
response, score the verdict lines of the second, and return
`sum(verdict_scores) / len(claim_statements)`. -/
def compute_score (claimResponse verdictResponse : String) : Except PyError PFloat :=
  let claim_statements := get_claim_statements claimResponse
  match get_claim_verdict_scores verdictResponse with
  | .error e => .error e
  | .ok verdict_scores =>
      if claim_statements.length = 0 then
        .error .zeroDivisionError
      else
        .ok (PFloat.divNat (pySum verdict_scores) claim_statements.length)

/-- One dataset item's interaction with the language model: either both
calls returned (their raw response texts), or some call raised. -/
inductive ItemRun where
  | responses (claimResponse verdictResponse : String)
  | raises (e : PyError)
deriving DecidableEq, Repr

/-- The outcome of one submitted `_compute_score` task (what `future.result()`
delivers). -/
def itemScore : ItemRun → Except PyError PFloat
  | .responses cr vr => compute_score cr vr
  | .raises e => .error e

/-- Embeds `Groundedness.evaluate`: each item's score is collected when its
future succeeds and the item is skipped (only logged) when it raises; the
result is `np.mean(results)` when any score was collected and `0.0`
otherwise.  The mean is invariant under the completion order in which
`as_completed` yields futures, so the dataset order stands in for it. -/
def evaluate (dataset : List ItemRun) : PFloat :=
  let results := dataset.filterMap (fun it => (itemScore it).toOption)
  if results.isEmpty then some 0 else PFloat.divNat (pySum results) results.length

end Groundedness

/-- Modelled from the spec: `GroundednessConfig` (from
`embedchain.config.eval.base`) is not among the reviewed sources; the spec
records only that it carries an explicit, optional `api_key` configuration
field, so only that field is modelled. -/
structure GroundednessConfig where
  api_key : Option String
deriving DecidableEq, Repr

/-- Embeds the credential resolution of `Groundedness.__init__`:
`api_key = self.config.api_key or os.environ["OPENAI_API_KEY"]`, then
`if not api_key: raise ValueError(...)`.  `env` is the value of the
`OPENAI_API_KEY` process environment variable; looking it up when absent
raises `KeyError`.  On success the resolved key is handed to the client
constructor; no network call happens during construction. -/
def groundednessInit (config : GroundednessConfig) (env : Option String) :
    Except PyError String :=
  let viaConfig : Option String :=
    match config.api_key with
    | none => none
    | some k => if k = "" then none else some k
  match viaConfig with
  | some k => .ok k
  | none =>
      match env with
      | none => .error (.keyError "OPENAI_API_KEY")
      | some v =>
          if v = "" then
            .error (.valueError
              "Please set the OPENAI_API_KEY environment variable or pass the `api_key` in config.")
          else .ok v

/-- An identifier-start character of Python `string.Template`'s default
placeholder pattern (`[_a-zA-Z]`, the default `idpattern` under the
`IGNORECASE` flag the class sets). -/
def isIdentStart (c : Char) : Bool :=
  c = '_' || ('a' ≤ c && c ≤ 'z') || ('A' ≤ c && c ≤ 'Z')

/-- An identifier-continuation character (`[_a-zA-Z0-9]`). -/
def isIdentCont (c : Char) : Bool :=
  isIdentStart c || ('0' ≤ c && c ≤ '9')

/-- The longest run of identifier-continuation characters, and the rest. -/
def takeIdent : List Char → List Char × List Char
  | [] => ([], [])
  | c :: cs =>
      if isIdentCont c then
        match takeIdent cs with
        | (i, r) => (c :: i, r)
      else ([], c :: cs)

/-- Reads `idpattern}` after a `${`, yielding the braced placeholder name. -/
def readBracedName : List Char → Option (String × List Char)
  | [] => none
  | c :: cs =>
      if isIdentStart c then
        match takeIdent cs with
        | (i, '}' :: rest) => some (String.mk (c :: i), rest)
        | _ => none
      else none

/-- Modelled from Python's standard `string.Template` pattern (the class the
repository substitutes templates with): scans for `$$` escapes, braced
`${name}` placeholders and bare `$name` placeholders, collecting placeholder
names left to right.  `fuel` only bounds recursion; one unit per consumed
character suffices. -/
def scanPlaceholderNames : Nat → List Char → List String
  | 0, _ => []
  | _ + 1, [] => []
  | fuel + 1, '$' :: '$' :: cs => scanPlaceholderNames fuel cs
  | fuel + 1, '$' :: '{' :: cs =>
      (match readBracedName cs with
       | some (name, rest) => name :: scanPlaceholderNames fuel rest
       | none => scanPlaceholderNames fuel cs)
  | fuel + 1, '$' :: c :: cs =>
      if isIdentStart c then
        match takeIdent cs with
        | (i, rest) => String.mk (c :: i) :: scanPlaceholderNames fuel rest
      else scanPlaceholderNames fuel (c :: cs)
  | fuel + 1, _ :: cs => scanPlaceholderNames fuel cs

/-- The placeholder names `string.Template` substitution would recognize. -/
def templatePlaceholderNames (s : String) : List String :=
  scanPlaceholderNames s.data.length s.data

/-! ## Helper lemmas -/

theorem stripBraces_cons_of_ne {c : Char} (cs : List Char) (h : c ≠ '{') :
    stripBraces (c :: cs) = c :: cs := by
  conv_lhs => rw [stripBraces.eq_def]
  split
  · rename_i cs' heq
    injection heq with h1 h2
    exact absurd h1 h
  · rfl

theorem placeholderSearch_dollar (name cs : List Char) :
    placeholderSearch name ('$' :: cs) =
      (name.isPrefixOf (stripBraces cs) || placeholderSearch name cs) := by
  rfl

theorem placeholderSearch_cons_ne (name : List Char) {c : Char} (h : c ≠ '$')
    (cs : List Char) :
    placeholderSearch name (c :: cs) = placeholderSearch name cs := by
  conv_lhs => rw [placeholderSearch.eq_def]
  split
  · rename_i heq
    cases heq
  · rename_i cs' heq
    injection heq with h1 h2
    exact absurd h1 h
  · rename_i c' cs' hne heq
    injection heq with h1 h2
    subst h1; subst h2
    rfl

theorem placeholderSearch_bare (name l2 : List Char) (l1 : List Char)
    (hne : name ≠ []) (hhead : name.head? ≠ some '{') :
    placeholderSearch name (l1 ++ '$' :: (name ++ l2)) = true := by
  induction l1 with
  | nil =>
      rw [List.nil_append, placeholderSearch_dollar]
      have hstrip : stripBraces (name ++ l2) = name ++ l2 := by
        cases name with
        | nil => exact absurd rfl hne
        | cons c cs =>
            exact stripBraces_cons_of_ne _ (by simpa using hhead)
      rw [hstrip]
      have hpre : name.isPrefixOf (name ++ l2) = true := by
        simp [List.isPrefixOf_iff_prefix]
      simp [hpre]
  | cons a l1' ih =>
      by_cases ha : a = '$'
      · subst ha
        rw [List.cons_append, placeholderSearch_dollar, ih, Bool.or_true]
      · rw [List.cons_append, placeholderSearch_cons_ne name ha, ih]

theorem placeholderSearch_braced (name l2 : List Char) (l1 : List Char)
    (hne : name ≠ []) (hhead : name.head? ≠ some '{') :
    placeholderSearch name (l1 ++ '$' :: '{' :: (name ++ ('}' :: l2))) = true := by
  induction l1 with
  | nil =>
      rw [List.nil_append, placeholderSearch_dollar]
      have hstrip : stripBraces ('{' :: (name ++ ('}' :: l2))) = name ++ ('}' :: l2) := by
        rw [show stripBraces ('{' :: (name ++ ('}' :: l2))) = stripBraces (name ++ ('}' :: l2)) from rfl]
        cases name with
        | nil => exact absurd rfl hne
        | cons c cs =>
            exact stripBraces_cons_of_ne _ (by simpa using hhead)
      rw [hstrip]
      have hpre : name.isPrefixOf (name ++ ('}' :: l2)) = true := by
        simp [List.isPrefixOf_iff_prefix]
      simp [hpre]
  | cons a l1' ih =>
      by_cases ha : a = '$'
      · subst ha
        rw [List.cons_append, placeholderSearch_dollar, ih, Bool.or_true]
      · rw [List.cons_append, placeholderSearch_cons_ne name ha, ih]

/-! ## Claims about the query-configuration validator -/

theorem validate_template_eq (history : Option (List String)) (t : String) :
    validate_template history t = true ↔
      (phSearch "query" t = true ∧ phSearch "context" t = true ∧
        (history.isSome = true → phSearch "history" t = true)) := by
  cases history <;> simp [validate_template, and_assoc]

theorem queryConfigInit_isOk_eq (t : String) (model temperature max_tokens top_p : PyObj)
    (history : Option (List String)) (b : Bool) :
    (queryConfigInit (some t) model temperature max_tokens top_p history (.pyBool b)).isOk =
      validate_template (normalizeHistory history) t := by
  by_cases hv : validate_template (normalizeHistory history) t = true
  · simp [queryConfigInit, hv, PyObj.isBool, Except.isOk, Except.toBool]
  · simp only [Bool.not_eq_true] at hv
    simp only [queryConfigInit, hv, Bool.false_eq_true, if_false]
    split <;> simp [Except.isOk, Except.toBool, hv]

/-- C2: for every template and history argument, `QueryConfig` construction
succeeds iff the template matches the `query` and `context` placeholder
patterns and, exactly when history is present, also the `history` pattern;
the patterns accept both the bare (`$name`) and the braced (`${name}`)
placeholder form; on validation failure construction fails with the
configuration `ValueError` naming the required keys. -/
theorem C2_template_validation (t : String) (history : Option (List String)) :
    ((queryConfigInit (some t) .pyNone .pyNone .pyNone .pyNone history
        (.pyBool false)).isOk = true ↔
      (phSearch "query" t = true ∧ phSearch "context" t = true ∧
        (historyPresent history = true → phSearch "history" t = true))) ∧
    ((queryConfigInit (some t) .pyNone .pyNone .pyNone .pyNone history
        (.pyBool false)).isOk = false →
      queryConfigInit (some t) .pyNone .pyNone .pyNone .pyNone history (.pyBool false) =
        .error (.valueError
          (if historyPresent history = true
           then "`template` should have `query`, `context` and `history` keys"
           else "`template` should have `query` and `context` keys"))) ∧
    (∀ (name : String) (l1 l2 : List Char),
      name.data ≠ [] → name.data.head? ≠ some '{' →
      placeholderSearch name.data (l1 ++ '$' :: (name.data ++ l2)) = true ∧
      placeholderSearch name.data (l1 ++ '$' :: '{' :: (name.data ++ ('}' :: l2))) = true) := by
  refine ⟨?_, ?_, ?_⟩
  · rw [queryConfigInit_isOk_eq, validate_template_eq]
    simp [historyPresent]
  · intro hfalse
    rw [queryConfigInit_isOk_eq] at hfalse
    simp only [queryConfigInit, hfalse, Bool.false_eq_true, if_false]
    cases hn : normalizeHistory history <;>
      simp [historyPresent, hn]
  · intro name l1 l2 hne hhead
    exact ⟨placeholderSearch_bare name.data l2 l1 hne hhead,
      placeholderSearch_braced name.data l2 l1 hne hhead⟩

/-- Witness for C2 at the template `"$query ${context}"` with no history. -/
theorem C2_template_validation_witness :
    ((queryConfigInit (some "$query ${context}") .pyNone .pyNone .pyNone .pyNone none
        (.pyBool false)).isOk = true ↔
      (phSearch "query" "$query ${context}" = true ∧
        phSearch "context" "$query ${context}" = true ∧
        (historyPresent none = true → phSearch "history" "$query ${context}" = true))) ∧
    (placeholderSearch "query".data ([] ++ '$' :: ("query".data ++ [])) = true ∧
      placeholderSearch "query".data ([] ++ '$' :: '{' :: ("query".data ++ ('}' :: []))) = true) :=
  ⟨(C2_template_validation "$query ${context}" none).1,
    (C2_template_validation "$query ${context}" none).2.2 "query" [] [] (by decide) (by decide)⟩

/-- C5: constructing with `history = None` and with `history = []` yields
identical results, and in either case the stored `history` attribute is the
no-history sentinel `None`. -/
theorem C5_history_normalization (template : Option String)
    (model temperature max_tokens top_p stream : PyObj) :
    queryConfigInit template model temperature max_tokens top_p none stream =
      queryConfigInit template model temperature max_tokens top_p (some []) stream ∧
    (∀ cfg, queryConfigInit template model temperature max_tokens top_p none stream =
        .ok cfg → cfg.history = none) := by
  constructor
  · rfl
  · intro cfg hcfg
    simp only [queryConfigInit, normalizeHistory, Option.isNone_none, if_true] at hcfg
    split at hcfg
    · split at hcfg
      · injection hcfg with h
        subst h
        rfl
      · simp at hcfg
    · simp at hcfg

set_option maxRecDepth 8192 in
/-- Witness for C5 at the default template with all parameters omitted. -/
theorem C5_history_normalization_witness :
    (queryConfigInit none .pyNone .pyNone .pyNone .pyNone none (.pyBool false) =
      queryConfigInit none .pyNone .pyNone .pyNone .pyNone (some []) (.pyBool false)) ∧
    QueryConfig.history ⟨DEFAULT_PROMPT, none, .pyStr "gpt-3.5-turbo-0613", .pyInt 0,
      .pyInt 1000, .pyInt 1, .pyBool false⟩ = none :=
  ⟨(C5_history_normalization none .pyNone .pyNone .pyNone .pyNone (.pyBool false)).1,
    (C5_history_normalization none .pyNone .pyNone .pyNone .pyNone (.pyBool false)).2
      ⟨DEFAULT_PROMPT, none, .pyStr "gpt-3.5-turbo-0613", .pyInt 0,
        .pyInt 1000, .pyInt 1, .pyBool false⟩ rfl⟩

set_option maxRecDepth 8192 in
/-- C6: when no template is given, construction succeeds and selects the
built-in default: `DEFAULT_PROMPT` when history is absent and the distinct
`DEFAULT_PROMPT_WITH_HISTORY` (which embeds a `history` placeholder, unlike
`DEFAULT_PROMPT`) when history is present. -/
theorem C6_default_template_selection (model temperature max_tokens top_p : PyObj)
    (b : Bool) (h : List String) (hne : h ≠ []) :
    (∃ cfg, queryConfigInit none model temperature max_tokens top_p none (.pyBool b) =
        .ok cfg ∧ cfg.template = DEFAULT_PROMPT) ∧
    (∃ cfg, queryConfigInit none model temperature max_tokens top_p (some h) (.pyBool b) =
        .ok cfg ∧ cfg.template = DEFAULT_PROMPT_WITH_HISTORY) ∧
    DEFAULT_PROMPT ≠ DEFAULT_PROMPT_WITH_HISTORY ∧
    phSearch "history" DEFAULT_PROMPT_WITH_HISTORY = true ∧
    phSearch "history" DEFAULT_PROMPT = false := by
  have hd1 : validate_template none DEFAULT_PROMPT = true := by decide
  have hd2 : ∀ l, validate_template (some l) DEFAULT_PROMPT_WITH_HISTORY = true := by
    intro l
    have hbase : validate_template (some []) DEFAULT_PROMPT_WITH_HISTORY = true := by decide
    simpa [validate_template] using hbase
  have hh : normalizeHistory (some h) = some h := by
    simp [normalizeHistory, hne]
  refine ⟨?_, ?_, by decide, by decide, by decide⟩
  · refine ⟨⟨DEFAULT_PROMPT, none,
      (if model = .pyNone then .pyStr "gpt-3.5-turbo-0613" else model),
      (if temperature = .pyNone then .pyInt 0 else temperature),
      (if max_tokens = .pyNone then .pyInt 1000 else max_tokens),
      (if top_p = .pyNone then .pyInt 1 else top_p),
      .pyBool b⟩, ?_, rfl⟩
    simp [queryConfigInit, normalizeHistory, hd1, PyObj.isBool]
  · refine ⟨⟨DEFAULT_PROMPT_WITH_HISTORY, some h,
      (if model = .pyNone then .pyStr "gpt-3.5-turbo-0613" else model),
      (if temperature = .pyNone then .pyInt 0 else temperature),
      (if max_tokens = .pyNone then .pyInt 1000 else max_tokens),
      (if top_p = .pyNone then .pyInt 1 else top_p),
      .pyBool b⟩, ?_, rfl⟩
    simp [queryConfigInit, hh, hd2, PyObj.isBool]

/-- Witness for C6 with the one-element history `["hi"]`. -/
theorem C6_default_template_selection_witness :
    (∃ cfg, queryConfigInit none .pyNone .pyNone .pyNone .pyNone none (.pyBool false) =
        .ok cfg ∧ cfg.template = DEFAULT_PROMPT) ∧
    (∃ cfg, queryConfigInit none .pyNone .pyNone .pyNone .pyNone (some ["hi"]) (.pyBool false) =
        .ok cfg ∧ cfg.template = DEFAULT_PROMPT_WITH_HISTORY) ∧
    DEFAULT_PROMPT ≠ DEFAULT_PROMPT_WITH_HISTORY ∧
    phSearch "history" DEFAULT_PROMPT_WITH_HISTORY = true ∧
    phSearch "history" DEFAULT_PROMPT = false :=
  C6_default_template_selection .pyNone .pyNone .pyNone .pyNone false ["hi"] (by decide)

/-- C7: construction fails with a configuration `ValueError` whenever the
`stream` argument is not a boolean, and with a valid template it accepts
exactly the booleans, storing the given value in the `stream` attribute. -/
theorem C7_stream_validation (t : String) (history : Option (List String)) (st : PyObj) :
    (st.isBool = false →
      ∃ msg, queryConfigInit (some t) .pyNone .pyNone .pyNone .pyNone history st =
        .error (.valueError msg)) ∧
    (∀ b : Bool, validate_template (normalizeHistory history) t = true →
      ∃ cfg, queryConfigInit (some t) .pyNone .pyNone .pyNone .pyNone history (.pyBool b) =
        .ok cfg ∧ cfg.stream = .pyBool b) := by
  constructor
  · intro hst
    by_cases hv : validate_template (normalizeHistory history) t = true
    · refine ⟨"`stream` should be bool", ?_⟩
      simp [queryConfigInit, hv, hst]
    · simp only [Bool.not_eq_true] at hv
      cases hn : (normalizeHistory history).isNone with
      | true =>
          refine ⟨"`template` should have `query` and `context` keys", ?_⟩
          simp [queryConfigInit, hv, hn]
      | false =>
          refine ⟨"`template` should have `query`, `context` and `history` keys", ?_⟩
          simp [queryConfigInit, hv, hn]
  · intro b hv
    refine ⟨⟨t, normalizeHistory history, .pyStr "gpt-3.5-turbo-0613", .pyInt 0,
      .pyInt 1000, .pyInt 1, .pyBool b⟩, ?_, rfl⟩
    simp [queryConfigInit, hv, PyObj.isBool]

/-- Witness for C7: the string `"true"` is rejected and `True` is accepted
for the valid template `"$query $context"`. -/
theorem C7_stream_validation_witness :
    ((PyObj.pyStr "true").isBool = false ∧
      ∃ msg, queryConfigInit (some "$query $context") .pyNone .pyNone .pyNone .pyNone none
        (.pyStr "true") = .error (.valueError msg)) ∧
    (validate_template (normalizeHistory none) "$query $context" = true ∧
      ∃ cfg, queryConfigInit (some "$query $context") .pyNone .pyNone .pyNone .pyNone none
        (.pyBool true) = .ok cfg ∧ cfg.stream = .pyBool true) :=
  ⟨⟨rfl, (C7_stream_validation "$query $context" none (.pyStr "true")).1 rfl⟩,
    ⟨by decide, (C7_stream_validation "$query $context" none (.pyStr "true")).2 true (by decide)⟩⟩

set_option maxRecDepth 8192 in
/-- C9: placeholder validation is an unanchored substring match: the template
`"$queryfoo $contextual"` contains no `query` or `context` substitution
placeholder (its `string.Template` placeholder names are `queryfoo` and
`contextual`), yet validation succeeds and construction returns a
configuration. -/
theorem C9_unanchored_substring_match :
    validate_template none "$queryfoo $contextual" = true ∧
    (∃ cfg, queryConfigInit (some "$queryfoo $contextual") .pyNone .pyNone .pyNone .pyNone
        none (.pyBool false) = .ok cfg) ∧
    templatePlaceholderNames "$queryfoo $contextual" = ["queryfoo", "contextual"] ∧
    "query" ∉ templatePlaceholderNames "$queryfoo $contextual" ∧
    "context" ∉ templatePlaceholderNames "$queryfoo $contextual" := by
  refine ⟨by decide,
    ⟨⟨"$queryfoo $contextual", none, .pyStr "gpt-3.5-turbo-0613", .pyInt 0,
      .pyInt 1000, .pyInt 1, .pyBool false⟩, rfl⟩,
    by decide, by decide, by decide⟩

/-! ## Claims about the groundedness scorer -/

theorem PFloat.add_nan (x : PFloat) : PFloat.add x PFloat.nan = PFloat.nan := by
  cases x <;> rfl

theorem PFloat.nan_add (x : PFloat) : PFloat.add PFloat.nan x = PFloat.nan := rfl

theorem foldl_add_nan (l : List PFloat) :
    l.foldl PFloat.add PFloat.nan = PFloat.nan := by
  induction l with
  | nil => rfl
  | cons x xs ih => simpa [PFloat.nan_add] using ih

theorem pySum_of_nan_mem : ∀ {l : List PFloat}, PFloat.nan ∈ l → pySum l = PFloat.nan := by
  have aux : ∀ (l : List PFloat) (acc : PFloat), PFloat.nan ∈ l →
      l.foldl PFloat.add acc = PFloat.nan := by
    intro l
    induction l with
    | nil => intro acc h; cases h
    | cons x xs ih =>
        intro acc h
        rcases List.mem_cons.mp h with hx | hxs
        · rw [List.foldl_cons, ← hx, PFloat.add_nan]
          exact foldl_add_nan xs
        · rw [List.foldl_cons]
          exact ih _ hxs
  intro l h
  exact aux l (some 0) h

theorem scoreVerdicts_mem : ∀ (l : List String) (vs : List PFloat),
    Groundedness.scoreVerdicts l = .ok vs → ∀ (x : String) (y : PFloat),
    x ∈ l → Groundedness.verdict_score_map x = .ok y → y ∈ vs := by
  intro l
  induction l with
  | nil => intro vs h x y hx hy; cases hx
  | cons v rest ih =>
      intro vs h x y hx hy
      simp only [Groundedness.scoreVerdicts] at h
      cases hv : Groundedness.verdict_score_map v with
      | error e => rw [hv] at h; simp at h
      | ok s =>
          rw [hv] at h
          cases hr : Groundedness.scoreVerdicts rest with
          | error e => rw [hr] at h; simp at h
          | ok rs =>
              rw [hr] at h
              simp only [] at h
              injection h with h'
              subst h'
              rcases List.mem_cons.mp hx with hxv | hxr
              · subst hxv
                rw [hv] at hy
                injection hy with hy'
                subst hy'
                exact List.mem_cons_self _ _
              · exact List.mem_cons_of_mem _ (ih rs hr x y hxr hy)

theorem filterMap_toOption_eq : ∀ (dataset : List Groundedness.ItemRun)
    (scores : List PFloat),
    dataset.map Groundedness.itemScore = scores.map Except.ok →
    dataset.filterMap (fun it => (Groundedness.itemScore it).toOption) = scores := by
  intro dataset
  induction dataset with
  | nil =>
      intro scores h
      cases scores with
      | nil => rfl
      | cons s ss => simp at h
  | cons d ds ih =>
      intro scores h
      cases scores with
      | nil => simp at h
      | cons s ss =>
          simp only [List.map_cons, List.cons.injEq] at h
          obtain ⟨h1, h2⟩ := h
          have hd : (Groundedness.itemScore d).toOption = some s := by
            rw [h1]; rfl
          simp only [List.filterMap_cons, hd]
          exact congrArg (fun l => s :: l) (ih ss h2)

/-- C1: for every item, the per-item groundedness score is the sum of the
numeric verdict scores divided by the number of claim statements extracted in
the first stage (not the number of verdicts); with claims `"claim1\nclaim2"`
and verdicts `"1\n0"` the score is `0.5`, and with three claims but only two
`"1"` verdicts the divisor is still the claim count `3`. -/
theorem C1_per_item_score (cr vr : String) (vs : List PFloat)
    (h1 : Groundedness.get_claim_verdict_scores vr = .ok vs)
    (h2 : Groundedness.get_claim_statements cr ≠ []) :
    Groundedness.compute_score cr vr =
      .ok (PFloat.divNat (pySum vs) (Groundedness.get_claim_statements cr).length) ∧
    Groundedness.compute_score "claim1\nclaim2" "1\n0" = .ok (some ((1 : ℚ)/2)) ∧
    Groundedness.compute_score "c1\nc2\nc3" "1\n1" = .ok (some ((2 : ℚ)/3)) := by
  refine ⟨?_, ?_, ?_⟩
  · simp only [Groundedness.compute_score, h1]
    rw [if_neg (by simpa [List.length_eq_zero] using h2)]
  · simp [Groundedness.compute_score, Groundedness.get_claim_statements,
      Groundedness.get_claim_verdict_scores, Groundedness.scoreVerdicts, stripSplitLines,
      pyStrip, pySplitChar, Groundedness.verdict_score_map, pySum, PFloat.add,
      PFloat.divNat, isPyWhitespace]
  · simp [Groundedness.compute_score, Groundedness.get_claim_statements,
      Groundedness.get_claim_verdict_scores, Groundedness.scoreVerdicts, stripSplitLines,
      pyStrip, pySplitChar, Groundedness.verdict_score_map, pySum, PFloat.add,
      PFloat.divNat, isPyWhitespace, one_add_one_eq_two]

/-- Witness for C1 at claims `"claim1\nclaim2"` and verdicts `"1\n0"`. -/
theorem C1_per_item_score_witness :
    Groundedness.compute_score "claim1\nclaim2" "1\n0" =
      .ok (PFloat.divNat (pySum [some 1, some 0])
        (Groundedness.get_claim_statements "claim1\nclaim2").length) ∧
    Groundedness.compute_score "claim1\nclaim2" "1\n0" = .ok (some ((1 : ℚ)/2)) :=
  ⟨(C1_per_item_score "claim1\nclaim2" "1\n0" [some 1, some 0] rfl (by decide)).1,
    (C1_per_item_score "claim1\nclaim2" "1\n0" [some 1, some 0] rfl (by decide)).2.1⟩

/-- C4: every `"-1"` verdict line maps to NaN, and the item's score is then
NaN (the NaN poisons the sum); it is not coerced to zero or to any other
number. -/
theorem C4_nan_verdict (cr vr : String) (vs : List PFloat)
    (h1 : Groundedness.get_claim_verdict_scores vr = .ok vs)
    (h2 : "-1" ∈ stripSplitLines vr)
    (h3 : Groundedness.get_claim_statements cr ≠ []) :
    PFloat.nan ∈ vs ∧
    Groundedness.compute_score cr vr = .ok PFloat.nan ∧
    ∀ q : ℚ, Groundedness.compute_score cr vr ≠ .ok (some q) := by
  have hmem : PFloat.nan ∈ vs :=
    scoreVerdicts_mem (stripSplitLines vr) vs h1 "-1" PFloat.nan h2 rfl
  have hscore : Groundedness.compute_score cr vr = .ok PFloat.nan := by
    simp only [Groundedness.compute_score, h1]
    rw [if_neg (by simpa [List.length_eq_zero] using h3)]
    rw [pySum_of_nan_mem hmem]
    rfl
  refine ⟨hmem, hscore, ?_⟩
  intro q hq
  rw [hscore] at hq
  injection hq with hq'
  exact Option.noConfusion hq'

/-- Witness for C4 at claims `"c1\nc2"` and verdicts `"1\n-1"`. -/
theorem C4_nan_verdict_witness :
    PFloat.nan ∈ ([some 1, PFloat.nan] : List PFloat) ∧
    Groundedness.compute_score "c1\nc2" "1\n-1" = .ok PFloat.nan ∧
    Groundedness.compute_score "c1\nc2" "1\n-1" ≠ .ok (some 0) :=
  ⟨(C4_nan_verdict "c1\nc2" "1\n-1" [some 1, PFloat.nan] rfl (by decide) (by decide)).1,
    (C4_nan_verdict "c1\nc2" "1\n-1" [some 1, PFloat.nan] rfl (by decide) (by decide)).2.1,
    (C4_nan_verdict "c1\nc2" "1\n-1" [some 1, PFloat.nan] rfl (by decide) (by decide)).2.2 0⟩

/-- C3: dataset evaluation drops an item whose scoring raises (any
exception), aggregates only the successfully computed scores into their
arithmetic mean, and returns `0.0` when no item succeeds, in particular on
the empty dataset. -/
theorem C3_dataset_mean (pre post : List Groundedness.ItemRun)
    (bad : Groundedness.ItemRun) (e : PyError)
    (hbad : Groundedness.itemScore bad = .error e)
    (dataset : List Groundedness.ItemRun) (scores : List PFloat)
    (hok : dataset.map Groundedness.itemScore = scores.map Except.ok) :
    Groundedness.evaluate (pre ++ bad :: post) = Groundedness.evaluate (pre ++ post) ∧
    Groundedness.evaluate dataset =
      (if scores.isEmpty then some 0 else PFloat.divNat (pySum scores) scores.length) ∧
    Groundedness.evaluate [] = some 0 := by
  refine ⟨?_, ?_, rfl⟩
  · simp only [Groundedness.evaluate, List.filterMap_append, List.filterMap_cons, hbad,
      Except.toOption]
  · simp only [Groundedness.evaluate, filterMap_toOption_eq dataset scores hok]

/-- Witness for C3: one raising item is dropped, a singleton dataset yields
its own score, and the empty dataset yields `0.0`. -/
theorem C3_dataset_mean_witness :
    Groundedness.evaluate ([] ++ .raises (.transportError "boom") :: []) =
      Groundedness.evaluate ([] ++ []) ∧
    Groundedness.evaluate [.responses "c" "1"] =
      (if ([some (1 : ℚ)] : List PFloat).isEmpty then some 0
       else PFloat.divNat (pySum [some (1 : ℚ)]) ([some (1 : ℚ)] : List PFloat).length) ∧
    Groundedness.evaluate [] = some 0 :=
  C3_dataset_mean [] [] (.raises (.transportError "boom")) (.transportError "boom") rfl
    [.responses "c" "1"] [some 1]
    (by simp [Groundedness.itemScore, Groundedness.compute_score,
      Groundedness.get_claim_statements, Groundedness.get_claim_verdict_scores,
      Groundedness.scoreVerdicts, stripSplitLines, pyStrip, pySplitChar,
      Groundedness.verdict_score_map, pySum, PFloat.add, PFloat.divNat, isPyWhitespace])

/-- C10: a per-item NaN score is collected as a success, so any dataset with
a successfully scored NaN item has a NaN dataset mean — not a mean over the
remaining items and not `0.0`. -/
theorem C10_nan_poisons_mean (dataset : List Groundedness.ItemRun)
    (hnan : ∃ it ∈ dataset, Groundedness.itemScore it = .ok PFloat.nan) :
    PFloat.nan ∈ dataset.filterMap (fun it => (Groundedness.itemScore it).toOption) ∧
    Groundedness.evaluate dataset = PFloat.nan ∧
    Groundedness.evaluate dataset ≠ some 0 := by
  obtain ⟨it, hit, hs⟩ := hnan
  have hmem : PFloat.nan ∈ dataset.filterMap (fun it => (Groundedness.itemScore it).toOption) :=
    List.mem_filterMap.mpr ⟨it, hit, by simp [hs, Except.toOption]⟩
  have hne : dataset.filterMap (fun it => (Groundedness.itemScore it).toOption) ≠ [] :=
    List.ne_nil_of_mem hmem
  have heval : Groundedness.evaluate dataset = PFloat.nan := by
    simp only [Groundedness.evaluate]
    rw [if_neg (by simpa [List.isEmpty_iff] using hne)]
    rw [pySum_of_nan_mem hmem]
    rfl
  exact ⟨hmem, heval, by rw [heval]; simp [PFloat.nan]⟩

/-- Witness for C10 at the one-item dataset whose verdict response is `"-1"`. -/
theorem C10_nan_poisons_mean_witness :
    PFloat.nan ∈ ([Groundedness.ItemRun.responses "c" "-1"].filterMap
      (fun it => (Groundedness.itemScore it).toOption)) ∧
    Groundedness.evaluate [.responses "c" "-1"] = PFloat.nan ∧
    Groundedness.evaluate [.responses "c" "-1"] ≠ some 0 :=
  C10_nan_poisons_mean [.responses "c" "-1"]
    ⟨.responses "c" "-1", List.mem_singleton_self _, rfl⟩

/-- C8: the scorer's API key is taken from the explicit config field when
that is set (non-empty), otherwise from the `OPENAI_API_KEY` environment
variable; when both are absent construction fails at once — before any
client call — with the error for the missing credential (a `KeyError` on the
environment lookup when the variable is unset, the descriptive `ValueError`
when it is set but empty). -/
theorem C8_api_key_resolution (ck : Option String) (env : Option String) :
    (∀ k, ck = some k → k ≠ "" → groundednessInit ⟨ck⟩ env = .ok k) ∧
    ((ck = none ∨ ck = some "") → ∀ v, env = some v → v ≠ "" →
      groundednessInit ⟨ck⟩ env = .ok v) ∧
    ((ck = none ∨ ck = some "") → env = none →
      groundednessInit ⟨ck⟩ env = .error (.keyError "OPENAI_API_KEY")) ∧
    ((ck = none ∨ ck = some "") → env = some "" →
      groundednessInit ⟨ck⟩ env = .error (.valueError
        "Please set the OPENAI_API_KEY environment variable or pass the `api_key` in config.")) := by
  refine ⟨?_, ?_, ?_, ?_⟩
  · rintro k rfl hk
    simp [groundednessInit, hk]
  · rintro (rfl | rfl) v rfl hv <;> simp [groundednessInit, hv]
  · rintro (rfl | rfl) rfl <;> simp [groundednessInit]
  · rintro (rfl | rfl) rfl <;> simp [groundednessInit]

/-- Witness for C8 across the four credential situations. -/
theorem C8_api_key_resolution_witness :
    groundednessInit ⟨some "sk-cfg"⟩ none = .ok "sk-cfg" ∧
    groundednessInit ⟨none⟩ (some "sk-env") = .ok "sk-env" ∧
    groundednessInit ⟨none⟩ none = .error (.keyError "OPENAI_API_KEY") ∧
    groundednessInit ⟨none⟩ (some "") = .error (.valueError
      "Please set the OPENAI_API_KEY environment variable or pass the `api_key` in config.") :=
  ⟨(C8_api_key_resolution (some "sk-cfg") none).1 "sk-cfg" rfl (by decide),
    (C8_api_key_resolution none (some "sk-env")).2.1 (Or.inl rfl) "sk-env" rfl (by decide),
    (C8_api_key_resolution none none).2.2.1 (Or.inl rfl) rfl,
    (C8_api_key_resolution none (some "")).2.2.2 (Or.inl rfl) rfl⟩
